import Mathlib

/-!
Shallow embedding of `custom-page-size.js` (Custom Page Size for Google
Docs, v1.1.0).  JavaScript numbers are modelled as exact rationals plus
the non-finite values `NaN`, `±Infinity` and `undefined`; the document
body and the persisted settings record are explicit state threaded
through the apply functions.  All definitions follow the source file;
line numbers in comments refer to it.
-/

/-- A JavaScript numeric value as it can reach the page-size functions:
`undefined` (missing argument), `NaN`, the two infinities, or a finite
number modelled exactly as a rational. -/
inductive JsNum where
  | undef
  | nan
  | inf
  | ninf
  | num (q : ℚ)
  deriving DecidableEq, Repr

namespace JsNum

/-- JavaScript truthiness of a numeric value: `undefined`, `NaN` and `0`
are falsy, every other number is truthy. -/
def truthy : JsNum → Bool
  | .undef => false
  | .nan => false
  | .inf => true
  | .ninf => true
  | .num q => decide (q ≠ 0)

/-- JavaScript `<` on numbers: any comparison involving `NaN` (or
`undefined`, which converts to `NaN`) is `false`. -/
def jlt : JsNum → JsNum → Bool
  | .undef, _ => false
  | _, .undef => false
  | .nan, _ => false
  | _, .nan => false
  | .inf, _ => false
  | .ninf, .ninf => false
  | .ninf, _ => true
  | .num _, .inf => true
  | .num _, .ninf => false
  | .num a, .num b => decide (a < b)

/-- JavaScript `>` on numbers. -/
def jgt (a b : JsNum) : Bool := jlt b a

/-- JavaScript `*` on numbers: `undefined` converts to `NaN`, `NaN`
propagates, infinities follow sign rules with `∞ * 0 = NaN`. -/
def jmul : JsNum → JsNum → JsNum
  | .undef, _ => .nan
  | _, .undef => .nan
  | .nan, _ => .nan
  | _, .nan => .nan
  | .inf, .inf => .inf
  | .inf, .ninf => .ninf
  | .ninf, .inf => .ninf
  | .ninf, .ninf => .inf
  | .inf, .num q => if 0 < q then .inf else if q < 0 then .ninf else .nan
  | .num q, .inf => if 0 < q then .inf else if q < 0 then .ninf else .nan
  | .ninf, .num q => if 0 < q then .ninf else if q < 0 then .inf else .nan
  | .num q, .ninf => if 0 < q then .ninf else if q < 0 then .inf else .nan
  | .num a, .num b => .num (a * b)

end JsNum

-- Conversion constant (line 31)
def POINTS_PER_INCH : ℚ := 72

-- Color constants (lines 34-35)
def COLOR_WHITE : String := "#FFFFFF"
def COLOR_CREAM : String := "#F8F3E6"

-- KDP size constraints in inches (lines 38-41)
def MIN_WIDTH : ℚ := 4
def MAX_WIDTH : ℚ := 8.5
def MIN_HEIGHT : ℚ := 6
def MAX_HEIGHT : ℚ := 11.69

/-- An entry of the `KDP_SIZES` table: width and height in inches and the
book type string (lines 44-71). -/
structure SizeEntry where
  width : ℚ
  height : ℚ
  type : String
  deriving DecidableEq, Repr

/-- An entry of the `COMMON_SIZES` table (lines 74-82). -/
structure CommonEntry where
  width : ℚ
  height : ℚ
  deriving DecidableEq, Repr

/-- The `KDP_SIZES` object (lines 44-71), as key lookup. -/
def KDP_SIZES : String → Option SizeEntry
  | "Paperback - 5 x 8" => some ⟨5, 8, "paperback"⟩
  | "Paperback - 5.06 x 7.81" => some ⟨5.06, 7.81, "paperback"⟩
  | "Paperback - 5.25 x 8" => some ⟨5.25, 8, "paperback"⟩
  | "Paperback - 5.5 x 8.5" => some ⟨5.5, 8.5, "paperback"⟩
  | "Paperback - 6 x 9" => some ⟨6, 9, "paperback"⟩
  | "Paperback - 6.14 x 9.21" => some ⟨6.14, 9.21, "paperback"⟩
  | "Paperback - 6.69 x 9.61" => some ⟨6.69, 9.61, "paperback"⟩
  | "Paperback - 7 x 10" => some ⟨7, 10, "paperback"⟩
  | "Paperback - 7.44 x 9.69" => some ⟨7.44, 9.69, "paperback"⟩
  | "Paperback - 7.5 x 9.25" => some ⟨7.5, 9.25, "paperback"⟩
  | "Paperback - 8 x 10" => some ⟨8, 10, "paperback"⟩
  | "Paperback - 8.25 x 6" => some ⟨8.25, 6, "paperback"⟩
  | "Paperback - 8.25 x 8.25" => some ⟨8.25, 8.25, "paperback"⟩
  | "Paperback - 8.5 x 8.5" => some ⟨8.5, 8.5, "paperback"⟩
  | "Paperback - 8.5 x 11" => some ⟨8.5, 11, "paperback"⟩
  | "Hardcover - 5 x 8" => some ⟨5, 8, "hardcover"⟩
  | "Hardcover - 5.5 x 8.5" => some ⟨5.5, 8.5, "hardcover"⟩
  | "Hardcover - 6 x 9" => some ⟨6, 9, "hardcover"⟩
  | "Hardcover - 7 x 10" => some ⟨7, 10, "hardcover"⟩
  | "Hardcover - 8 x 10" => some ⟨8, 10, "hardcover"⟩
  | "Hardcover - 8.25 x 8.25" => some ⟨8.25, 8.25, "hardcover"⟩
  | "Hardcover - 8.5 x 8.5" => some ⟨8.5, 8.5, "hardcover"⟩
  | "Hardcover - 8.5 x 11" => some ⟨8.5, 11, "hardcover"⟩
  | _ => none

/-- The `COMMON_SIZES` object (lines 74-82). -/
def COMMON_SIZES : String → Option CommonEntry
  | "Letter" => some ⟨8.5, 11⟩
  | "Legal" => some ⟨8.5, 14⟩
  | "Tabloid" => some ⟨11, 17⟩
  | "A4" => some ⟨8.27, 11.69⟩
  | "A5" => some ⟨5.83, 8.27⟩
  | "A3" => some ⟨11.69, 16.54⟩
  | "Custom" => some ⟨0, 0⟩
  | _ => none

/-- The `marginSettings` object handed to the server functions by the
dialog (lines 296-308): either `{ type: marginType }` or
`{ top, bottom, inside, outside }`.  Absent fields read as `undefined`. -/
structure MarginSettings where
  type : Option String := none
  top : Option JsNum := none
  bottom : Option JsNum := none
  inside : Option JsNum := none
  outside : Option JsNum := none
  deriving DecidableEq, Repr

/-- JavaScript truthiness of `marginSettings.type`: absent (`undefined`)
and the empty string are falsy. -/
def truthyStr : Option String → Bool
  | none => false
  | some t => decide (t ≠ "")

/-- The mutable page attributes of the document `Body` that the script
touches, all length values in points. -/
structure Body where
  pageWidth : JsNum
  pageHeight : JsNum
  backgroundColor : String
  marginTop : JsNum
  marginBottom : JsNum
  marginLeft : JsNum
  marginRight : JsNum
  deriving DecidableEq, Repr

/-- The settings record written by `saveDocumentSettings` (lines 539-552)
to the document properties (modelled structurally; the code stores it
JSON-encoded under one key). -/
structure SavedSettings where
  sizeName : String
  width : JsNum
  height : JsNum
  bookType : String
  paperType : String
  inkType : String
  lastUpdated : String
  deriving DecidableEq, Repr

/-- Document state: the body plus the persisted properties record. -/
structure DocState where
  body : Body
  props : Option SavedSettings
  deriving DecidableEq, Repr

/-- A fresh US-Letter document (612 × 792 pt, 1 in margins) on which the
script has never run, so no settings record is stored yet. -/
def initialState : DocState :=
  ⟨⟨.num 612, .num 792, COLOR_WHITE, .num 72, .num 72, .num 72, .num 72⟩, none⟩

/-- `applyMargins` (lines 490-526): named variants set fixed constants;
otherwise the four custom fields are converted to points (an absent field
reads as `undefined`, so its product is `NaN`). -/
def applyMargins (body : Body) (marginSettings : MarginSettings) : Body :=
  if truthyStr marginSettings.type then
    if marginSettings.type.getD "" = "default" then
      { body with marginTop := .num (1 * POINTS_PER_INCH),
                  marginBottom := .num (1 * POINTS_PER_INCH),
                  marginLeft := .num (1 * POINTS_PER_INCH),
                  marginRight := .num (1 * POINTS_PER_INCH) }
    else if marginSettings.type.getD "" = "narrow" then
      { body with marginTop := .num (0.5 * POINTS_PER_INCH),
                  marginBottom := .num (0.5 * POINTS_PER_INCH),
                  marginLeft := .num (0.5 * POINTS_PER_INCH),
                  marginRight := .num (0.5 * POINTS_PER_INCH) }
    else if marginSettings.type.getD "" = "wide" then
      { body with marginTop := .num (1.25 * POINTS_PER_INCH),
                  marginBottom := .num (1.25 * POINTS_PER_INCH),
                  marginLeft := .num (1.25 * POINTS_PER_INCH),
                  marginRight := .num (1.25 * POINTS_PER_INCH) }
    else if marginSettings.type.getD "" = "mirrored" then
      { body with marginTop := .num (1 * POINTS_PER_INCH),
                  marginBottom := .num (1 * POINTS_PER_INCH),
                  marginLeft := .num (1.25 * POINTS_PER_INCH),
                  marginRight := .num (0.75 * POINTS_PER_INCH) }
    else
      body
  else
    { body with marginTop := JsNum.jmul (marginSettings.top.getD .undef) (.num POINTS_PER_INCH),
                marginBottom := JsNum.jmul (marginSettings.bottom.getD .undef) (.num POINTS_PER_INCH),
                marginLeft := JsNum.jmul (marginSettings.inside.getD .undef) (.num POINTS_PER_INCH),
                marginRight := JsNum.jmul (marginSettings.outside.getD .undef) (.num POINTS_PER_INCH) }

/-- `saveDocumentSettings` (lines 539-552); `now` stands for the
`new Date().toISOString()` timestamp supplied by the environment. -/
def saveDocumentSettings (sizeName : String) (width height : JsNum)
    (bookType paperType inkType : String) (now : String) (st : DocState) : DocState :=
  { st with props := some ⟨sizeName, width, height, bookType, paperType, inkType, now⟩ }

/-- Two-digit zero padding for decimal formatting. -/
def pad2 (n : ℤ) : String :=
  if n < 10 then "0" ++ toString n else toString n

/-- JavaScript default number-to-string for the nonnegative decimal
values appearing in the size tables (denominator dividing 100): shortest
decimal without trailing zeros. -/
def ratToStr (q : ℚ) : String :=
  if q.den = 1 then toString q.num
  else if 100 % q.den = 0 then
    let n : ℤ := q.num * ((100 : ℤ) / (q.den : ℤ))
    let ip := n / 100
    let fp := n % 100
    toString ip ++ "." ++ (if fp % 10 = 0 then toString (fp / 10) else pad2 fp)
  else toString q

/-- JavaScript `Number.prototype.toFixed(2)` for the nonnegative finite
values reaching it (the custom path only formats validated dimensions). -/
def toFixed2 : JsNum → String
  | .num q =>
    let n : ℤ := Rat.floor (q * 100 + 1 / 2)
    toString (n / 100) ++ "." ++ pad2 (n % 100)
  | .nan => "NaN"
  | .undef => "NaN"
  | .inf => "Infinity"
  | .ninf => "-Infinity"

/-- The `sizeName.replace(/^(Paperback|Hardcover) - /, "")` display
transformation (line 423). -/
def stripSizeLabel (s : String) : String :=
  if "Paperback - ".data.isPrefixOf s.data then String.mk (s.data.drop 12)
  else if "Hardcover - ".data.isPrefixOf s.data then String.mk (s.data.drop 12)
  else s

/-- The single server-side validation error string of
`applyCustomPageSize` (line 449), the constants interpolated. -/
def INVALID_DIMENSIONS_MSG : String :=
  "Error: Invalid dimensions. Width must be between 4\" and 8.5\", and height between 6\" and 11.69\"."

/-- The string returned when a size name misses both tables: reading
`.width` of `undefined` throws a TypeError which the `catch` (lines
426-429) wraps as `"Error: " + error`.  (The host engine additionally
quotes the property name; the quotes are elided here.) -/
def LOOKUP_TYPEERROR_MSG : String :=
  "Error: TypeError: Cannot read properties of undefined (reading width)"

/-- The validation condition of `applyCustomPageSize` (lines 446-448):
`!width || !height || width < MIN_WIDTH || width > MAX_WIDTH ||
height < MIN_HEIGHT || height > MAX_HEIGHT`. -/
def dimensionError (widthInches heightInches : JsNum) : Bool :=
  !widthInches.truthy || !heightInches.truthy ||
  widthInches.jlt (.num MIN_WIDTH) || widthInches.jgt (.num MAX_WIDTH) ||
  heightInches.jlt (.num MIN_HEIGHT) || heightInches.jgt (.num MAX_HEIGHT)

/-- `applyCustomPageSize` (lines 443-478): validate, then set page size,
background color, margins, save the settings record, and return the
status message. -/
def applyCustomPageSize (widthInches heightInches : JsNum)
    (bookType paperType inkType : String) (marginSettings : MarginSettings)
    (now : String) (st : DocState) : DocState × String :=
  if dimensionError widthInches heightInches then
    (st, INVALID_DIMENSIONS_MSG)
  else
    let pageWidth := JsNum.jmul widthInches (.num POINTS_PER_INCH)
    let pageHeight := JsNum.jmul heightInches (.num POINTS_PER_INCH)
    let body1 := { st.body with
      pageWidth := pageWidth, pageHeight := pageHeight,
      backgroundColor := if paperType = "cream" then COLOR_CREAM else COLOR_WHITE }
    let body2 := applyMargins body1 marginSettings
    let st2 := saveDocumentSettings "Custom" widthInches heightInches bookType paperType inkType now ⟨body2, st.props⟩
    (st2,
     "Custom page size set to " ++ toFixed2 widthInches ++ "\" × " ++ toFixed2 heightInches ++
     "\" as " ++ bookType ++ " with " ++ paperType ++ " paper and " ++ inkType ++ " ink.")

/-- `applyPageSettings` (lines 391-430): look the name up in `KDP_SIZES`,
falling back to `COMMON_SIZES`; a name absent from both throws reading
`.width` of `undefined`, caught and returned as the generic error string
before any document mutation. -/
def applyPageSettings (sizeName bookType paperType inkType : String)
    (marginSettings : MarginSettings) (now : String) (st : DocState) : DocState × String :=
  let dims : Option (ℚ × ℚ) :=
    match KDP_SIZES sizeName with
    | some e => some (e.width, e.height)
    | none =>
      match COMMON_SIZES sizeName with
      | some e => some (e.width, e.height)
      | none => none
  match dims with
  | none => (st, LOOKUP_TYPEERROR_MSG)
  | some (widthInches, heightInches) =>
    let pageWidth := widthInches * POINTS_PER_INCH
    let pageHeight := heightInches * POINTS_PER_INCH
    let body1 := { st.body with
      pageWidth := .num pageWidth, pageHeight := .num pageHeight,
      backgroundColor := if paperType = "cream" then COLOR_CREAM else COLOR_WHITE }
    let body2 := applyMargins body1 marginSettings
    let st2 := saveDocumentSettings sizeName (.num widthInches) (.num heightInches) bookType paperType inkType now ⟨body2, st.props⟩
    (st2,
     "Page size set to " ++ stripSizeLabel sizeName ++ " (" ++ ratToStr widthInches ++
     "\" × " ++ ratToStr heightInches ++ "\") as " ++ bookType ++ " with " ++ paperType ++
     " paper and " ++ inkType ++ " ink.")

/-- The ink `select` value after the dialog's `updateInkOptions`
(lines 262-275) runs: for a hardcover book the `standard` choice is
remapped to `premium`; otherwise the value is kept. -/
def updateInkOptionsValue (bookType inkValue : String) : String :=
  if bookType = "hardcover" then
    (if inkValue = "standard" then "premium" else inkValue)
  else inkValue

/-! ### Helper lemmas -/

theorem applyMargins_preserves (b : Body) (ms : MarginSettings) :
    (applyMargins b ms).pageWidth = b.pageWidth ∧
    (applyMargins b ms).pageHeight = b.pageHeight ∧
    (applyMargins b ms).backgroundColor = b.backgroundColor := by
  unfold applyMargins
  repeat' split
  all_goals exact ⟨rfl, rfl, rfl⟩

/-- Full characterisation of `applyPageSettings` when the name is found
in the KDP table. -/
theorem applyPageSettings_found (name : String) (e : SizeEntry)
    (bt pt it : String) (ms : MarginSettings) (now : String) (st : DocState)
    (hk : KDP_SIZES name = some e) :
    applyPageSettings name bt pt it ms now st =
      (⟨applyMargins
          { st.body with
            pageWidth := .num (e.width * POINTS_PER_INCH),
            pageHeight := .num (e.height * POINTS_PER_INCH),
            backgroundColor := if pt = "cream" then COLOR_CREAM else COLOR_WHITE } ms,
        some ⟨name, .num e.width, .num e.height, bt, pt, it, now⟩⟩,
       "Page size set to " ++ stripSizeLabel name ++ " (" ++ ratToStr e.width ++
       "\" × " ++ ratToStr e.height ++ "\") as " ++ bt ++ " with " ++ pt ++
       " paper and " ++ it ++ " ink.") := by
  simp only [applyPageSettings, hk, saveDocumentSettings]

/-- Full characterisation of `applyPageSettings` when the name is found
only in the common-sizes table. -/
theorem applyPageSettings_found_common (name : String) (e : CommonEntry)
    (bt pt it : String) (ms : MarginSettings) (now : String) (st : DocState)
    (hk : KDP_SIZES name = none) (hc : COMMON_SIZES name = some e) :
    applyPageSettings name bt pt it ms now st =
      (⟨applyMargins
          { st.body with
            pageWidth := .num (e.width * POINTS_PER_INCH),
            pageHeight := .num (e.height * POINTS_PER_INCH),
            backgroundColor := if pt = "cream" then COLOR_CREAM else COLOR_WHITE } ms,
        some ⟨name, .num e.width, .num e.height, bt, pt, it, now⟩⟩,
       "Page size set to " ++ stripSizeLabel name ++ " (" ++ ratToStr e.width ++
       "\" × " ++ ratToStr e.height ++ "\") as " ++ bt ++ " with " ++ pt ++
       " paper and " ++ it ++ " ink.") := by
  simp only [applyPageSettings, hk, hc, saveDocumentSettings]

/-- Bool-level form of the validation guard on finite inputs. -/
theorem dimensionError_num (a b : ℚ) :
    (dimensionError (.num a) (.num b) = false) ↔
      (a ≠ 0 ∧ b ≠ 0 ∧ 4 ≤ a ∧ a ≤ 8.5 ∧ 6 ≤ b ∧ b ≤ 11.69) := by
  simp only [dimensionError, JsNum.truthy, JsNum.jlt, JsNum.jgt,
    MIN_WIDTH, MAX_WIDTH, MIN_HEIGHT, MAX_HEIGHT,
    Bool.or_eq_false_iff, Bool.not_eq_false', decide_eq_true_eq,
    decide_eq_false_iff_not, not_lt]
  tauto

/-- The validation guard of `applyCustomPageSize` passes exactly on
finite dimensions inside the KDP bounds. -/
theorem dimensionError_false_iff (w h : JsNum) :
    dimensionError w h = false ↔
      ∃ qw qh : ℚ, w = .num qw ∧ h = .num qh ∧
        4 ≤ qw ∧ qw ≤ 8.5 ∧ 6 ≤ qh ∧ qh ≤ 11.69 := by
  cases w with
  | num a =>
    cases h with
    | num b =>
      rw [dimensionError_num]
      constructor
      · rintro ⟨-, -, h1, h2, h3, h4⟩
        exact ⟨a, b, rfl, rfl, h1, h2, h3, h4⟩
      · rintro ⟨qw, qh, hqw, hqh, h1, h2, h3, h4⟩
        cases hqw; cases hqh
        refine ⟨?_, ?_, h1, h2, h3, h4⟩
        · intro h0; rw [h0] at h1; norm_num at h1
        · intro h0; rw [h0] at h3; norm_num at h3
    | undef => simp [dimensionError, JsNum.truthy]
    | nan => simp [dimensionError, JsNum.truthy]
    | inf =>
      constructor
      · intro hfalse
        exfalso
        simp [dimensionError, JsNum.truthy, JsNum.jlt, JsNum.jgt] at hfalse
      · rintro ⟨qw, qh, -, hqh, -⟩; cases hqh
    | ninf =>
      constructor
      · intro hfalse
        exfalso
        simp [dimensionError, JsNum.truthy, JsNum.jlt, JsNum.jgt] at hfalse
      · rintro ⟨qw, qh, -, hqh, -⟩; cases hqh
  | undef => simp [dimensionError, JsNum.truthy]
  | nan => simp [dimensionError, JsNum.truthy]
  | inf =>
    constructor
    · intro hfalse
      exfalso
      simp [dimensionError, JsNum.truthy, JsNum.jlt, JsNum.jgt] at hfalse
    · rintro ⟨qw, qh, hqw, -⟩; cases hqw
  | ninf =>
    constructor
    · intro hfalse
      exfalso
      simp [dimensionError, JsNum.truthy, JsNum.jlt, JsNum.jgt] at hfalse
    · rintro ⟨qw, qh, hqw, -⟩; cases hqw
/-- Evaluation of `applyMargins` at the "default" variant. -/
theorem applyMargins_default (b : Body) :
    applyMargins b ⟨some "default", none, none, none, none⟩ =
      { b with marginTop := .num (1 * POINTS_PER_INCH), marginBottom := .num (1 * POINTS_PER_INCH),
               marginLeft := .num (1 * POINTS_PER_INCH), marginRight := .num (1 * POINTS_PER_INCH) } := by
  cases b; rfl

/-! ### Claim theorems -/

/-- Claim C1: the custom-dimension validation performed by
`applyCustomPageSize` succeeds — the function proceeds to apply the page
size and save a settings record instead of returning the validation
error — if and only if both raw inputs are finite numbers with width in
the inclusive range `[4, 8.5]` and height in `[6, 11.69]`; in particular
the guard rejects width `3.9` and `8.6` and height `5.99` and `11.7`,
and accepts width `4.0` and `8.5` and height `6.0` and `11.69`. -/
theorem claim_C1_custom_validation_iff (w h : JsNum) (bt pt it : String)
    (ms : MarginSettings) (now : String) (st : DocState) (hfresh : st.props = none) :
    ((applyCustomPageSize w h bt pt it ms now st).1.props.isSome ↔
      ∃ qw qh : ℚ, w = .num qw ∧ h = .num qh ∧
        4 ≤ qw ∧ qw ≤ 8.5 ∧ 6 ≤ qh ∧ qh ≤ 11.69) ∧
    dimensionError (.num 3.9) (.num 9) = true ∧
    dimensionError (.num 8.6) (.num 9) = true ∧
    dimensionError (.num 6) (.num 5.99) = true ∧
    dimensionError (.num 6) (.num 11.7) = true ∧
    dimensionError (.num 4) (.num 6) = false ∧
    dimensionError (.num 8.5) (.num 11.69) = false := by
  refine ⟨?_, by with_unfolding_all rfl, by with_unfolding_all rfl, by with_unfolding_all rfl,
    by with_unfolding_all rfl, by with_unfolding_all rfl, by with_unfolding_all rfl⟩
  rw [← dimensionError_false_iff]
  cases hd : dimensionError w h
  · simp [applyCustomPageSize, hd, saveDocumentSettings]
  · simp [applyCustomPageSize, hd, hfresh]

/-- Witness for claim C1 at width 6, height 9 on a fresh document. -/
theorem claim_C1_witness :
    ((applyCustomPageSize (.num 6) (.num 9) "paperback" "white" "black"
        ⟨some "default", none, none, none, none⟩ "2025-03-01" initialState).1.props.isSome ↔
      ∃ qw qh : ℚ, JsNum.num 6 = .num qw ∧ JsNum.num 9 = .num qh ∧
        4 ≤ qw ∧ qw ≤ 8.5 ∧ 6 ≤ qh ∧ qh ≤ 11.69) ∧
    dimensionError (.num 3.9) (.num 9) = true ∧
    dimensionError (.num 8.6) (.num 9) = true ∧
    dimensionError (.num 6) (.num 5.99) = true ∧
    dimensionError (.num 6) (.num 11.7) = true ∧
    dimensionError (.num 4) (.num 6) = false ∧
    dimensionError (.num 8.5) (.num 11.69) = false :=
  claim_C1_custom_validation_iff (.num 6) (.num 9) "paperback" "white" "black"
    ⟨some "default", none, none, none, none⟩ "2025-03-01" initialState rfl

/-- Claim C2: for every name in the KDP table, `applyPageSettings` uses
exactly the stored width and height — the page size becomes the stored
inches times `POINTS_PER_INCH` and the saved settings record holds the
untransformed inch values; concretely, "Paperback - 6 x 9" with margin
selection "default" yields a 432 × 648 pt page (6 × 9 in) with all four
margins 72 pt (1 in). -/
theorem claim_C2_preset_lookup_exact (name : String) (e : SizeEntry) (bt pt it : String)
    (ms : MarginSettings) (now : String) (st : DocState) (hk : KDP_SIZES name = some e) :
    ((applyPageSettings name bt pt it ms now st).1.body.pageWidth = .num (e.width * POINTS_PER_INCH) ∧
     (applyPageSettings name bt pt it ms now st).1.body.pageHeight = .num (e.height * POINTS_PER_INCH) ∧
     (applyPageSettings name bt pt it ms now st).1.props =
       some ⟨name, .num e.width, .num e.height, bt, pt, it, now⟩) ∧
    ((applyPageSettings "Paperback - 6 x 9" bt pt it ⟨some "default", none, none, none, none⟩ now st).1.body.pageWidth = .num 432 ∧
     (applyPageSettings "Paperback - 6 x 9" bt pt it ⟨some "default", none, none, none, none⟩ now st).1.body.pageHeight = .num 648 ∧
     (applyPageSettings "Paperback - 6 x 9" bt pt it ⟨some "default", none, none, none, none⟩ now st).1.body.marginTop = .num 72 ∧
     (applyPageSettings "Paperback - 6 x 9" bt pt it ⟨some "default", none, none, none, none⟩ now st).1.body.marginBottom = .num 72 ∧
     (applyPageSettings "Paperback - 6 x 9" bt pt it ⟨some "default", none, none, none, none⟩ now st).1.body.marginLeft = .num 72 ∧
     (applyPageSettings "Paperback - 6 x 9" bt pt it ⟨some "default", none, none, none, none⟩ now st).1.body.marginRight = .num 72 ∧
     (applyPageSettings "Paperback - 6 x 9" bt pt it ⟨some "default", none, none, none, none⟩ now st).1.props =
       some ⟨"Paperback - 6 x 9", .num 6, .num 9, bt, pt, it, now⟩) := by
  constructor
  · rw [applyPageSettings_found name e bt pt it ms now st hk]
    exact ⟨(applyMargins_preserves _ _).1, (applyMargins_preserves _ _).2.1, rfl⟩
  · rw [applyPageSettings_found "Paperback - 6 x 9" ⟨6, 9, "paperback"⟩ bt pt it
        ⟨some "default", none, none, none, none⟩ now st rfl, applyMargins_default]
    refine ⟨?_, ?_, ?_, ?_, ?_, ?_, rfl⟩ <;> with_unfolding_all rfl

/-- Witness for claim C2 at the KDP preset "Hardcover - 5 x 8". -/
theorem claim_C2_witness :
    (((applyPageSettings "Hardcover - 5 x 8" "hardcover" "cream" "black"
        ⟨some "narrow", none, none, none, none⟩ "t" initialState).1.body.pageWidth = .num (5 * POINTS_PER_INCH) ∧
      (applyPageSettings "Hardcover - 5 x 8" "hardcover" "cream" "black"
        ⟨some "narrow", none, none, none, none⟩ "t" initialState).1.body.pageHeight = .num (8 * POINTS_PER_INCH) ∧
      (applyPageSettings "Hardcover - 5 x 8" "hardcover" "cream" "black"
        ⟨some "narrow", none, none, none, none⟩ "t" initialState).1.props =
        some ⟨"Hardcover - 5 x 8", .num 5, .num 8, "hardcover", "cream", "black", "t"⟩) ∧
     ((applyPageSettings "Paperback - 6 x 9" "hardcover" "cream" "black" ⟨some "default", none, none, none, none⟩ "t" initialState).1.body.pageWidth = .num 432 ∧
      (applyPageSettings "Paperback - 6 x 9" "hardcover" "cream" "black" ⟨some "default", none, none, none, none⟩ "t" initialState).1.body.pageHeight = .num 648 ∧
      (applyPageSettings "Paperback - 6 x 9" "hardcover" "cream" "black" ⟨some "default", none, none, none, none⟩ "t" initialState).1.body.marginTop = .num 72 ∧
      (applyPageSettings "Paperback - 6 x 9" "hardcover" "cream" "black" ⟨some "default", none, none, none, none⟩ "t" initialState).1.body.marginBottom = .num 72 ∧
      (applyPageSettings "Paperback - 6 x 9" "hardcover" "cream" "black" ⟨some "default", none, none, none, none⟩ "t" initialState).1.body.marginLeft = .num 72 ∧
      (applyPageSettings "Paperback - 6 x 9" "hardcover" "cream" "black" ⟨some "default", none, none, none, none⟩ "t" initialState).1.body.marginRight = .num 72 ∧
      (applyPageSettings "Paperback - 6 x 9" "hardcover" "cream" "black" ⟨some "default", none, none, none, none⟩ "t" initialState).1.props =
        some ⟨"Paperback - 6 x 9", .num 6, .num 9, "hardcover", "cream", "black", "t"⟩)) :=
  claim_C2_preset_lookup_exact "Hardcover - 5 x 8" ⟨5, 8, "hardcover"⟩ "hardcover" "cream" "black"
    ⟨some "narrow", none, none, none, none⟩ "t" initialState rfl

/-- Claim C3: the four named margin variants of `applyMargins` set
exactly the fixed constants — default 1 in on all sides, narrow 0.5 in,
wide 1.25 in, mirrored top 1 / bottom 1 / inside (left) 1.25 /
outside (right) 0.75 in. -/
theorem claim_C3_margin_variants (b : Body) :
    applyMargins b ⟨some "default", none, none, none, none⟩ =
      { b with marginTop := .num (1 * POINTS_PER_INCH), marginBottom := .num (1 * POINTS_PER_INCH),
               marginLeft := .num (1 * POINTS_PER_INCH), marginRight := .num (1 * POINTS_PER_INCH) } ∧
    applyMargins b ⟨some "narrow", none, none, none, none⟩ =
      { b with marginTop := .num (0.5 * POINTS_PER_INCH), marginBottom := .num (0.5 * POINTS_PER_INCH),
               marginLeft := .num (0.5 * POINTS_PER_INCH), marginRight := .num (0.5 * POINTS_PER_INCH) } ∧
    applyMargins b ⟨some "wide", none, none, none, none⟩ =
      { b with marginTop := .num (1.25 * POINTS_PER_INCH), marginBottom := .num (1.25 * POINTS_PER_INCH),
               marginLeft := .num (1.25 * POINTS_PER_INCH), marginRight := .num (1.25 * POINTS_PER_INCH) } ∧
    applyMargins b ⟨some "mirrored", none, none, none, none⟩ =
      { b with marginTop := .num (1 * POINTS_PER_INCH), marginBottom := .num (1 * POINTS_PER_INCH),
               marginLeft := .num (1.25 * POINTS_PER_INCH), marginRight := .num (0.75 * POINTS_PER_INCH) } := by
  cases b
  exact ⟨rfl, rfl, rfl, rfl⟩

/-- Claim C4 counterexample: applying a request with
bookType = "hardcover" and inkType = "standard" through the server-side
`applyPageSettings` produces a settings record holding exactly that
forbidden combination — nothing is remapped or rejected. -/
theorem claim_C4_counterexample :
    (applyPageSettings "Hardcover - 6 x 9" "hardcover" "white" "standard"
        ⟨some "default", none, none, none, none⟩ "2025-03-01" initialState).1.props =
      some ⟨"Hardcover - 6 x 9", .num 6, .num 9, "hardcover", "white", "standard", "2025-03-01"⟩ := by
  rfl

/-- Claim C4 (amended): the server-side apply path saves the ink type
verbatim, even for a hardcover book with standard ink; only the dialog's
`updateInkOptions` remaps a standard-ink selection to premium when the
book type is hardcover. -/
theorem claim_C4_amended_no_server_remap (name : String) (e : SizeEntry) (pt : String)
    (ms : MarginSettings) (now : String) (st : DocState) (hk : KDP_SIZES name = some e) :
    (applyPageSettings name "hardcover" pt "standard" ms now st).1.props =
      some ⟨name, .num e.width, .num e.height, "hardcover", pt, "standard", now⟩ ∧
    updateInkOptionsValue "hardcover" "standard" = "premium" := by
  refine ⟨?_, rfl⟩
  rw [applyPageSettings_found name e "hardcover" pt "standard" ms now st hk]

/-- Witness for the amended claim C4 at "Hardcover - 8 x 10". -/
theorem claim_C4_witness :
    (applyPageSettings "Hardcover - 8 x 10" "hardcover" "white" "standard"
        ⟨some "default", none, none, none, none⟩ "t" initialState).1.props =
      some ⟨"Hardcover - 8 x 10", .num 8, .num 10, "hardcover", "white", "standard", "t"⟩ ∧
    updateInkOptionsValue "hardcover" "standard" = "premium" :=
  claim_C4_amended_no_server_remap "Hardcover - 8 x 10" ⟨8, 10, "hardcover"⟩ "white"
    ⟨some "default", none, none, none, none⟩ "t" initialState rfl

set_option maxRecDepth 10000 in
/-- Claim C5 counterexample: for names absent from both tables the
caller gets the generic caught-TypeError wrapper — the same string for
every absent name, containing neither the requested name nor any
not-found wording, and of exactly the `"Error: " + error` shape every
other caught failure takes — so the error is not distinguishable as a
lookup failure. -/
theorem claim_C5_counterexample :
    (applyPageSettings "Paperback - 6 x 10" "paperback" "white" "black"
        ⟨some "default", none, none, none, none⟩ "t" initialState).2 = LOOKUP_TYPEERROR_MSG ∧
    (applyPageSettings "Bogus Size" "paperback" "white" "black"
        ⟨some "default", none, none, none, none⟩ "t" initialState).2 = LOOKUP_TYPEERROR_MSG ∧
    ¬ List.IsInfix "not found".data LOOKUP_TYPEERROR_MSG.data ∧
    ¬ List.IsInfix "Paperback - 6 x 10".data LOOKUP_TYPEERROR_MSG.data ∧
    LOOKUP_TYPEERROR_MSG =
      "Error: " ++ "TypeError: Cannot read properties of undefined (reading width)" := by
  refine ⟨by with_unfolding_all rfl, by with_unfolding_all rfl, by decide, by decide,
    by with_unfolding_all rfl⟩

/-- Claim C5 (amended): for every size name absent from both tables,
`applyPageSettings` returns an error (not a success message) and leaves
the document unchanged, but the error is the generic caught-exception
wrapper around the TypeError from the failed table read, not an error
tagged or worded as a lookup/NotFound failure. -/
theorem claim_C5_amended_generic_error (name bt pt it : String) (ms : MarginSettings)
    (now : String) (st : DocState)
    (h1 : KDP_SIZES name = none) (h2 : COMMON_SIZES name = none) :
    applyPageSettings name bt pt it ms now st = (st, LOOKUP_TYPEERROR_MSG) := by
  simp only [applyPageSettings, h1, h2]

/-- Witness for the amended claim C5 at the absent name "Bogus Size". -/
theorem claim_C5_witness :
    applyPageSettings "Bogus Size" "paperback" "white" "black"
      ⟨some "default", none, none, none, none⟩ "t" initialState =
      (initialState, LOOKUP_TYPEERROR_MSG) :=
  claim_C5_amended_generic_error "Bogus Size" "paperback" "white" "black"
    ⟨some "default", none, none, none, none⟩ "t" initialState rfl rfl

/-- Claim C6 counterexample: four distinct bound violations — width
below minimum, width above maximum, height below minimum, height above
maximum — and even a missing argument all yield the identical fixed
error message, so the error does not name the violated bound. -/
theorem claim_C6_counterexample :
    (applyCustomPageSize (.num 3.9) (.num 9) "paperback" "white" "black"
        ⟨some "default", none, none, none, none⟩ "t" initialState).2 = INVALID_DIMENSIONS_MSG ∧
    (applyCustomPageSize (.num 9) (.num 9) "paperback" "white" "black"
        ⟨some "default", none, none, none, none⟩ "t" initialState).2 = INVALID_DIMENSIONS_MSG ∧
    (applyCustomPageSize (.num 5) (.num 5) "paperback" "white" "black"
        ⟨some "default", none, none, none, none⟩ "t" initialState).2 = INVALID_DIMENSIONS_MSG ∧
    (applyCustomPageSize (.num 5) (.num 12) "paperback" "white" "black"
        ⟨some "default", none, none, none, none⟩ "t" initialState).2 = INVALID_DIMENSIONS_MSG ∧
    (applyCustomPageSize .undef (.num 9) "paperback" "white" "black"
        ⟨some "default", none, none, none, none⟩ "t" initialState).2 = INVALID_DIMENSIONS_MSG := by
  refine ⟨?_, ?_, ?_, ?_, ?_⟩ <;> with_unfolding_all rfl

/-- Claim C6 (amended): every validation failure of
`applyCustomPageSize` — missing or non-numeric input as well as any
out-of-bounds dimension — returns the single fixed error message that
states both allowed ranges but does not identify which bound was
violated. -/
theorem claim_C6_amended_single_message (w h : JsNum) (bt pt it : String)
    (ms : MarginSettings) (now : String) (st : DocState)
    (hd : dimensionError w h = true) :
    (applyCustomPageSize w h bt pt it ms now st).2 = INVALID_DIMENSIONS_MSG := by
  simp [applyCustomPageSize, hd]

/-- Witness for the amended claim C6 at width 3.9 (below minimum). -/
theorem claim_C6_witness :
    (applyCustomPageSize (.num 3.9) (.num 9) "paperback" "white" "black"
        ⟨some "custom", none, none, none, none⟩ "t" initialState).2 = INVALID_DIMENSIONS_MSG :=
  claim_C6_amended_single_message (.num 3.9) (.num 9) "paperback" "white" "black"
    ⟨some "custom", none, none, none, none⟩ "t" initialState (by with_unfolding_all rfl)

/-- Claim C7: inch-to-point conversion is multiplication by the single
constant 72 (`POINTS_PER_INCH`), for page dimensions and margins alike;
1 inch converts to 72 units and 8.5 inches to 612 units. -/
theorem claim_C7_points_per_inch_conversion (qw qh t : ℚ) (bt pt it : String)
    (ms : MarginSettings) (now : String) (st : DocState) (b : Body)
    (hd : dimensionError (.num qw) (.num qh) = false) :
    POINTS_PER_INCH = 72 ∧
    JsNum.jmul (.num qw) (.num POINTS_PER_INCH) = .num (qw * 72) ∧
    (applyCustomPageSize (.num qw) (.num qh) bt pt it ms now st).1.body.pageWidth = .num (qw * 72) ∧
    (applyCustomPageSize (.num qw) (.num qh) bt pt it ms now st).1.body.pageHeight = .num (qh * 72) ∧
    (applyMargins b ⟨none, some (.num t), some (.num t), some (.num t), some (.num t)⟩).marginTop = .num (t * 72) ∧
    (1 : ℚ) * POINTS_PER_INCH = 72 ∧
    (8.5 : ℚ) * POINTS_PER_INCH = 612 := by
  refine ⟨rfl, rfl, ?_, ?_, ?_,
    by norm_num [POINTS_PER_INCH], by norm_num [POINTS_PER_INCH]⟩
  · simp [applyCustomPageSize, hd, saveDocumentSettings, (applyMargins_preserves _ ms).1,
      JsNum.jmul, POINTS_PER_INCH]
  · simp [applyCustomPageSize, hd, saveDocumentSettings, (applyMargins_preserves _ ms).2.1,
      JsNum.jmul, POINTS_PER_INCH]
  · simp [applyMargins, truthyStr, JsNum.jmul, POINTS_PER_INCH]

/-- Witness for claim C7 at 6 × 9 inches and a 1-inch custom margin. -/
theorem claim_C7_witness :
    POINTS_PER_INCH = 72 ∧
    JsNum.jmul (.num 6) (.num POINTS_PER_INCH) = .num (6 * 72) ∧
    (applyCustomPageSize (.num 6) (.num 9) "paperback" "white" "black"
        ⟨some "default", none, none, none, none⟩ "t" initialState).1.body.pageWidth = .num (6 * 72) ∧
    (applyCustomPageSize (.num 6) (.num 9) "paperback" "white" "black"
        ⟨some "default", none, none, none, none⟩ "t" initialState).1.body.pageHeight = .num (9 * 72) ∧
    (applyMargins initialState.body ⟨none, some (.num 1), some (.num 1), some (.num 1), some (.num 1)⟩).marginTop = .num (1 * 72) ∧
    (1 : ℚ) * POINTS_PER_INCH = 72 ∧
    (8.5 : ℚ) * POINTS_PER_INCH = 612 :=
  claim_C7_points_per_inch_conversion 6 9 1 "paperback" "white" "black"
    ⟨some "default", none, none, none, none⟩ "t" initialState initialState.body
    (by with_unfolding_all rfl)

/-- Claim C8: when validation fails, `applyCustomPageSize` returns the
error message and performs no document mutation at all — the whole
document state (page size, background color, margins, properties) is
returned unchanged. -/
theorem claim_C8_invalid_leaves_document_unchanged (w h : JsNum) (bt pt it : String)
    (ms : MarginSettings) (now : String) (st : DocState)
    (hd : dimensionError w h = true) :
    applyCustomPageSize w h bt pt it ms now st = (st, INVALID_DIMENSIONS_MSG) := by
  simp [applyCustomPageSize, hd]

/-- Witness for claim C8 with a missing width argument. -/
theorem claim_C8_witness :
    applyCustomPageSize .undef (.num 9) "paperback" "white" "black"
      ⟨some "default", none, none, none, none⟩ "t" initialState =
      (initialState, INVALID_DIMENSIONS_MSG) :=
  claim_C8_invalid_leaves_document_unchanged .undef (.num 9) "paperback" "white" "black"
    ⟨some "default", none, none, none, none⟩ "t" initialState (by with_unfolding_all rfl)

/-- Claim C9: the common-size table maps "Custom" to width 0 and height
0, so `applyPageSettings` with that name does not hit the lookup-failure
path and runs no dimension validation: it succeeds, setting the page to
0 × 0 points and saving a settings record. -/
theorem claim_C9_custom_entry_zero (bt pt it : String) (ms : MarginSettings)
    (now : String) (st : DocState) :
    COMMON_SIZES "Custom" = some ⟨0, 0⟩ ∧
    KDP_SIZES "Custom" = none ∧
    (applyPageSettings "Custom" bt pt it ms now st).1.body.pageWidth = .num 0 ∧
    (applyPageSettings "Custom" bt pt it ms now st).1.body.pageHeight = .num 0 ∧
    (applyPageSettings "Custom" bt pt it ms now st).1.props =
      some ⟨"Custom", .num 0, .num 0, bt, pt, it, now⟩ ∧
    (applyPageSettings "Custom" bt pt it ms now st).2 =
      "Page size set to Custom (0\" × 0\") as " ++ bt ++ " with " ++ pt ++
      " paper and " ++ it ++ " ink." := by
  refine ⟨rfl, rfl, ?_, ?_, ?_, ?_⟩
  · rw [applyPageSettings_found_common "Custom" ⟨0, 0⟩ bt pt it ms now st rfl rfl,
      (applyMargins_preserves _ ms).1]
    with_unfolding_all rfl
  · rw [applyPageSettings_found_common "Custom" ⟨0, 0⟩ bt pt it ms now st rfl rfl,
      (applyMargins_preserves _ ms).2.1]
    with_unfolding_all rfl
  · rw [applyPageSettings_found_common "Custom" ⟨0, 0⟩ bt pt it ms now st rfl rfl]
  · rw [applyPageSettings_found_common "Custom" ⟨0, 0⟩ bt pt it ms now st rfl rfl]
    with_unfolding_all rfl

/-- Claim C10: a truthy margin-type string that is none of the four
named variants makes `applyMargins` perform no mutation at all: the
body is returned unchanged. -/
theorem claim_C10_unknown_margin_type_noop (b : Body) (t : String)
    (h0 : t ≠ "") (h1 : t ≠ "default") (h2 : t ≠ "narrow")
    (h3 : t ≠ "wide") (h4 : t ≠ "mirrored") :
    applyMargins b ⟨some t, none, none, none, none⟩ = b := by
  simp [applyMargins, truthyStr, h0, h1, h2, h3, h4]

/-- Witness for claim C10 at the unknown margin type "moderate". -/
theorem claim_C10_witness :
    applyMargins initialState.body ⟨some "moderate", none, none, none, none⟩ =
      initialState.body :=
  claim_C10_unknown_margin_type_noop initialState.body "moderate"
    (by decide) (by decide) (by decide) (by decide) (by decide)
